import Mathlib

/-!
Shallow embedding of the bgmtv client library (Rust crate `bgmtv`):
the JSON data model with its custom codec rules, the per-operation
request builders ("executors"), and the client configuration, together
with theorems checking the natural-language specification against them.

JSON values are modelled by an explicit AST; objects carry their fields
as an ordered association list, mirroring the byte-level field order the
serde derives produce, and lookup takes the first binding of a key.
-/

/-- A JSON value.  Numbers are restricted to integers, which covers every
numeric field the crate serializes (ids, counts, enum codes). -/
inductive Json where
  | str : String → Json
  | num : Int → Json
  | bool : Bool → Json
  | arr : List Json → Json
  | obj : List (String × Json) → Json
  | null : Json
deriving Repr

/-- First binding of a key in a JSON object's field list. -/
def jlookup (k : String) : List (String × Json) → Option Json
  | [] => none
  | (k', v) :: rest => if k' = k then some v else jlookup k rest

/-- `SortType` from `src/types.rs` (string enum, lowercase on the wire,
default `match`). -/
inductive SortType where
  | Match
  | Heat
  | Rank
  | Score
deriving Repr, DecidableEq

/-- Wire string of a `SortType` (serde `rename_all = lowercase`). -/
def SortType.toWire : SortType → String
  | .Match => "match"
  | .Heat => "heat"
  | .Rank => "rank"
  | .Score => "score"

/-- `SubjectType` from `src/types.rs` (`repr(u8)` codes 1,2,3,4,6). -/
inductive SubjectType where
  | Book
  | Anime
  | Music
  | Game
  | Real
deriving Repr, DecidableEq

def SubjectType.toCode : SubjectType → Int
  | .Book => 1
  | .Anime => 2
  | .Music => 3
  | .Game => 4
  | .Real => 6

/-- Decode of `SubjectType` as generated by `Deserialize_repr`: only the
declared codes succeed. -/
def decodeSubjectType (n : Int) : Option SubjectType :=
  if n = 1 then some .Book
  else if n = 2 then some .Anime
  else if n = 3 then some .Music
  else if n = 4 then some .Game
  else if n = 6 then some .Real
  else none

/-- `CharacterType` from `src/types.rs` (`repr(u8)` codes 1..4). -/
inductive CharacterType where
  | Character
  | Mechanic
  | Ship
  | Organization
deriving Repr, DecidableEq

def decodeCharacterType (n : Int) : Option CharacterType :=
  if n = 1 then some .Character
  else if n = 2 then some .Mechanic
  else if n = 3 then some .Ship
  else if n = 4 then some .Organization
  else none

/-- `PersonType` from `src/types.rs` (`repr(u8)` codes 1..3). -/
inductive PersonType where
  | Individual
  | Corporation
  | Association
deriving Repr, DecidableEq

def decodePersonType (n : Int) : Option PersonType :=
  if n = 1 then some .Individual
  else if n = 2 then some .Corporation
  else if n = 3 then some .Association
  else none

/-- `EpisodeType` from `src/types.rs` (`repr(u8)` codes 0..6). -/
inductive EpisodeType where
  | MainStory
  | SP
  | OP
  | ED
  | PV
  | MAD
  | Other
deriving Repr, DecidableEq

def EpisodeType.toCode : EpisodeType → Int
  | .MainStory => 0
  | .SP => 1
  | .OP => 2
  | .ED => 3
  | .PV => 4
  | .MAD => 5
  | .Other => 6

def decodeEpisodeType (n : Int) : Option EpisodeType :=
  if n = 0 then some .MainStory
  else if n = 1 then some .SP
  else if n = 2 then some .OP
  else if n = 3 then some .ED
  else if n = 4 then some .PV
  else if n = 5 then some .MAD
  else if n = 6 then some .Other
  else none

/-- `BloodType` from `src/types.rs` (`repr(u8)` codes 1..4). -/
inductive BloodType where
  | A
  | B
  | AB
  | O
deriving Repr, DecidableEq

def decodeBloodType (n : Int) : Option BloodType :=
  if n = 1 then some .A
  else if n = 2 then some .B
  else if n = 3 then some .AB
  else if n = 4 then some .O
  else none

/-- `SubjectBookCategory` from `src/types.rs` (`repr(u16)` codes
0, 1001, 1002, 1003). -/
inductive SubjectBookCategory where
  | Other
  | Comic
  | Novel
  | Illustration
deriving Repr, DecidableEq

def decodeSubjectBookCategory (n : Int) : Option SubjectBookCategory :=
  if n = 0 then some .Other
  else if n = 1001 then some .Comic
  else if n = 1002 then some .Novel
  else if n = 1003 then some .Illustration
  else none

/-- `SubjectAnimeCategory` from `src/types.rs` (`repr(u16)` codes 1..4). -/
inductive SubjectAnimeCategory where
  | TV
  | OVA
  | Movie
  | Web
deriving Repr, DecidableEq

def decodeSubjectAnimeCategory (n : Int) : Option SubjectAnimeCategory :=
  if n = 1 then some .TV
  else if n = 2 then some .OVA
  else if n = 3 then some .Movie
  else if n = 4 then some .Web
  else none

/-- `SubjectGameCategory` from `src/types.rs` (`repr(u16)` codes
0, 4001, 4002, 4003, 4005). -/
inductive SubjectGameCategory where
  | Other
  | Games
  | Software
  | DLC
  | Tabletop
deriving Repr, DecidableEq

def decodeSubjectGameCategory (n : Int) : Option SubjectGameCategory :=
  if n = 0 then some .Other
  else if n = 4001 then some .Games
  else if n = 4002 then some .Software
  else if n = 4003 then some .DLC
  else if n = 4005 then some .Tabletop
  else none

/-- `SubjectRealCategory` from `src/types.rs` (`repr(u16)` codes
0, 1, 2, 3, 6001..6004). -/
inductive SubjectRealCategory where
  | Other
  | JP
  | EN
  | CN
  | TV
  | Movie
  | Live
  | Show
deriving Repr, DecidableEq

def decodeSubjectRealCategory (n : Int) : Option SubjectRealCategory :=
  if n = 0 then some .Other
  else if n = 1 then some .JP
  else if n = 2 then some .EN
  else if n = 3 then some .CN
  else if n = 6001 then some .TV
  else if n = 6002 then some .Movie
  else if n = 6003 then some .Live
  else if n = 6004 then some .Show
  else none

/-- `SubjectCategory` from `src/types.rs`: a serde `untagged` union of the
four category enums, all sharing a bare-integer wire form. -/
inductive SubjectCategory where
  | Book : SubjectBookCategory → SubjectCategory
  | Anime : SubjectAnimeCategory → SubjectCategory
  | Game : SubjectGameCategory → SubjectCategory
  | Real : SubjectRealCategory → SubjectCategory
deriving Repr, DecidableEq

/-- Decode of the untagged `SubjectCategory`: serde tries the variants in
declaration order (Book, Anime, Game, Real) and keeps the first success. -/
def decodeSubjectCategory (n : Int) : Option SubjectCategory :=
  match decodeSubjectBookCategory n with
  | some c => some (.Book c)
  | none =>
    match decodeSubjectAnimeCategory n with
    | some c => some (.Anime c)
    | none =>
      match decodeSubjectGameCategory n with
      | some c => some (.Game c)
      | none =>
        match decodeSubjectRealCategory n with
        | some c => some (.Real c)
        | none => none

/-- `SubjectCategory` serializes as the bare code of its payload
(`Serialize_repr` under `untagged`). -/
def SubjectCategory.toCode : SubjectCategory → Int
  | .Book .Other => 0
  | .Book .Comic => 1001
  | .Book .Novel => 1002
  | .Book .Illustration => 1003
  | .Anime .TV => 1
  | .Anime .OVA => 2
  | .Anime .Movie => 3
  | .Anime .Web => 4
  | .Game .Other => 0
  | .Game .Games => 4001
  | .Game .Software => 4002
  | .Game .DLC => 4003
  | .Game .Tabletop => 4005
  | .Real .Other => 0
  | .Real .JP => 1
  | .Real .EN => 2
  | .Real .CN => 3
  | .Real .TV => 6001
  | .Real .Movie => 6002
  | .Real .Live => 6003
  | .Real .Show => 6004

/-- `InfoboxValueItem` from `src/types.rs`: an untagged union of a
two-field key/value pair and a one-field value-only pair. -/
inductive InfoboxValueItem where
  | KV : String → String → InfoboxValueItem
  | V : String → InfoboxValueItem
deriving Repr, DecidableEq

/-- `InfoboxValue` from `src/types.rs`: an untagged union of a single
string and a list of items. -/
inductive InfoboxValue where
  | Single : String → InfoboxValue
  | List : List InfoboxValueItem → InfoboxValue
deriving Repr, DecidableEq

/-- Decode of the untagged `InfoboxValueItem`: serde tries the `KV`
variant (fields `k` and `v`) first, then falls back to the `V` variant
(field `v`); anything else fails. -/
def decodeInfoboxValueItem (j : Json) : Option InfoboxValueItem :=
  match j with
  | .obj fs =>
    match jlookup "k" fs, jlookup "v" fs with
    | some (.str k), some (.str v) => some (.KV k v)
    | _, _ =>
      match jlookup "v" fs with
      | some (.str v) => some (.V v)
      | _ => none
  | _ => none

/-- Decode of the untagged `InfoboxValue`: a raw string decodes as
`Single`; an array decodes element-wise as items into `List`; anything
else fails. -/
def decodeInfoboxValue (j : Json) : Option InfoboxValue :=
  match j with
  | .str s => some (.Single s)
  | .arr elems => (elems.mapM decodeInfoboxValueItem).map .List
  | _ => none

/-- `SearchSubjectsFilter` from `src/types.rs`: five independently
optional list conditions plus an NSFW flag defaulting to `false`. -/
structure SearchSubjectsFilter where
  type : List SubjectType := []
  tag : List String := []
  air_date : List String := []
  rating : List String := []
  rank : List String := []
  nsfw : Bool := false
deriving Repr, DecidableEq

/-- One optional object field of the filter's serialization: serde's
`skip_serializing_if = Vec::is_empty` drops the key when the list is
empty, otherwise emits the list in order. -/
def optListField (name : String) (l : List α) (enc : α → Json) :
    List (String × Json) :=
  if l.isEmpty then [] else [(name, Json.arr (l.map enc))]

/-- Serialization of `SearchSubjectsFilter` as the serde derive renders
it: fields in declaration order, empty lists omitted, `nsfw` always
present. -/
def serializeSearchSubjectsFilter (f : SearchSubjectsFilter) : Json :=
  .obj (optListField "type" f.type (fun t => Json.num t.toCode)
    ++ optListField "tag" f.tag Json.str
    ++ optListField "air_date" f.air_date Json.str
    ++ optListField "rating" f.rating Json.str
    ++ optListField "rank" f.rank Json.str
    ++ [("nsfw", Json.bool f.nsfw)])

/-- Decode one JSON value as an array of subject-type codes. -/
def decodeSubjectTypeList (j : Json) : Option (List SubjectType) :=
  match j with
  | .arr elems =>
    elems.mapM (fun e =>
      match e with
      | .num n => decodeSubjectType n
      | _ => none)
  | _ => none

/-- Decode one JSON value as an array of strings. -/
def decodeStringList (j : Json) : Option (List String) :=
  match j with
  | .arr elems =>
    elems.mapM (fun e =>
      match e with
      | .str s => some s
      | _ => none)
  | _ => none

/-- Deserialization of `SearchSubjectsFilter` as the serde derive
generates it: every field lacks a serde default, so each of the six keys
is required and a missing key fails the decode. -/
def decodeSearchSubjectsFilter (j : Json) : Option SearchSubjectsFilter :=
  match j with
  | .obj fs => do
    let ty ← jlookup "type" fs >>= decodeSubjectTypeList
    let tg ← jlookup "tag" fs >>= decodeStringList
    let ad ← jlookup "air_date" fs >>= decodeStringList
    let rt ← jlookup "rating" fs >>= decodeStringList
    let rk ← jlookup "rank" fs >>= decodeStringList
    let ns ← match jlookup "nsfw" fs with
      | some (.bool b) => some b
      | _ => none
    pure ⟨ty, tg, ad, rt, rk, ns⟩
  | _ => none

/-- `SearchSubjectsBody` from `src/types.rs`, fields in declaration
order: keyword, filter, sort. -/
structure SearchSubjectsBody where
  keyword : String
  filter : SearchSubjectsFilter
  sort : SortType
deriving Repr

/-- Serialization of `SearchSubjectsBody` as the serde derive renders
it (declaration order). -/
def serializeSearchSubjectsBody (b : SearchSubjectsBody) : Json :=
  .obj [("keyword", Json.str b.keyword),
        ("filter", serializeSearchSubjectsFilter b.filter),
        ("sort", Json.str b.sort.toWire)]

/-- Default user agent string from `src/client.rs` (version and
repository baked in at build time). -/
def DEFAULT_USER_AGENT : String :=
  "duskmoon/bgmtv/0.3.1 (https://github.com/duskmoon314/bgmtv-rs)"

/-- The underlying transport handle (a `reqwest::Client`): what matters
to the embedding is the set of default headers it attaches to every
request it performs, including the user agent. -/
structure TransportHandle where
  defaultHeaders : List (String × String)
  userAgent : String
deriving Repr, DecidableEq

/-- Client configuration from `src/client.rs`. -/
structure Client where
  base_url : String
  user_agent : Option String
  token : Option String
  client : TransportHandle
deriving Repr, DecidableEq

/-- `ClientBuilder` state: each field optional until `build`. -/
structure ClientBuilder where
  base_url : Option String := none
  user_agent : Option String := none
  token : Option String := none
  client : Option TransportHandle := none
deriving Repr, DecidableEq

/-- `ClientBuilder::default_client` from `src/client.rs`: builds a
transport whose default headers hold `Authorization: Bearer <token>`
exactly when a token was set, and whose user agent falls back to the
crate default. -/
def ClientBuilder.default_client (b : ClientBuilder) : TransportHandle :=
  { defaultHeaders :=
      match b.token with
      | some t => [("Authorization", "Bearer " ++ t)]
      | none => [],
    userAgent := b.user_agent.getD DEFAULT_USER_AGENT }

/-- `ClientBuilder::build` as generated by `derive_builder`: every field
defaults, the transport defaulting to `default_client` only when the
caller did not supply one. -/
def ClientBuilder.build (b : ClientBuilder) : Client :=
  { base_url := b.base_url.getD "https://api.bgm.tv",
    user_agent := b.user_agent,
    token := b.token,
    client := b.client.getD b.default_client }

/-- HTTP method of a rendered request. -/
inductive Method where
  | GET
  | POST
deriving Repr, DecidableEq

/-- A rendered request descriptor: what the executors hand to the
transport.  Headers are the transport's default headers followed by the
per-request ones. -/
structure Request where
  method : Method
  path : String
  query : List (String × String)
  headers : List (String × String)
  body : Option Json
deriving Repr

/-- Headers of a request performed through a given client configuration:
the transport's default headers plus the per-request extras (reqwest
applies `default_headers` to every request of the client). -/
def Client.requestHeaders (c : Client) (extra : List (String × String)) :
    List (String × String) :=
  c.client.defaultHeaders ++ extra

/-- One optional query pair: `None` contributes nothing, `Some`
contributes the pair once (both reqwest's serialization of
`Option` query values and the explicit `if let Some` blocks in
`subjects.rs` behave this way). -/
def optQ (name : String) (o : Option String) : List (String × String) :=
  match o with
  | none => []
  | some v => [(name, v)]

/-- `SearchSubjectsExecutor` from `src/client/subjects.rs`. -/
structure SearchSubjectsExecutor where
  client : Client
  keyword : String
  sort : SortType
  limit : Option Nat := none
  offset : Option Nat := none
  filter : SearchSubjectsFilter
deriving Repr

/-- `SearchSubjectsExecutor::send`, up to handing the request to the
transport: renders `POST /v0/search/subjects` with `limit` and `offset`
as optional query pairs (in that order) and the JSON body built from
keyword, sort and filter. -/
def SearchSubjectsExecutor.render (e : SearchSubjectsExecutor) : Request :=
  { method := .POST,
    path := "/v0/search/subjects",
    query := optQ "limit" (e.limit.map toString)
      ++ optQ "offset" (e.offset.map toString),
    headers := e.client.requestHeaders [("Accept", "application/json")],
    body := some (serializeSearchSubjectsBody
      ⟨e.keyword, e.filter, e.sort⟩) }

/-- `SearchSubjectsExecutorBuilder` state as generated by
`derive_builder`: fields without a `default` attribute (client, keyword,
sort, filter) are mandatory; `limit` and `offset` default. -/
structure SearchSubjectsExecutorBuilder where
  client : Option Client := none
  keyword : Option String := none
  sort : Option SortType := none
  limit : Option (Option Nat) := none
  offset : Option (Option Nat) := none
  filter : Option SearchSubjectsFilter := none
deriving Repr

/-- `SearchSubjectsExecutor::builder`: a fresh builder with the client
reference installed. -/
def SearchSubjectsExecutor.builder (c : Client) :
    SearchSubjectsExecutorBuilder :=
  { client := some c }

/-- `SearchSubjectsExecutorBuilder::build` as generated by
`derive_builder`: fails with an uninitialized-field error naming the
first unset mandatory field in declaration order; defaulted fields fall
back to their default. -/
def SearchSubjectsExecutorBuilder.build (b : SearchSubjectsExecutorBuilder) :
    Except String SearchSubjectsExecutor :=
  match b.client with
  | none => .error "client"
  | some c =>
    match b.keyword with
    | none => .error "keyword"
    | some kw =>
      match b.sort with
      | none => .error "sort"
      | some so =>
        match b.filter with
        | none => .error "filter"
        | some f =>
          .ok { client := c, keyword := kw, sort := so,
                limit := b.limit.getD none, offset := b.offset.getD none,
                filter := f }

/-- `GetSubjectsExecutor` from `src/client/subjects.rs`. -/
structure GetSubjectsExecutor where
  client : Client
  type : SubjectType
  cat : Option SubjectCategory := none
  series : Option Bool := none
  platform : Option String := none
  sort : Option String := none
  year : Option Nat := none
  month : Option Nat := none
  limit : Option Nat := none
  offset : Option Nat := none
deriving Repr

/-- Wire form of a boolean in a query string (`bool::to_string`). -/
def boolStr (b : Bool) : String := if b then "true" else "false"

/-- `GetSubjectsExecutor::send`, up to handing the request to the
transport: `GET /v0/subjects` with the mandatory `type` pair first and
every set optional parameter appended once, in source order. -/
def GetSubjectsExecutor.render (e : GetSubjectsExecutor) : Request :=
  { method := .GET,
    path := "/v0/subjects",
    query := [("type", toString e.type.toCode)]
      ++ optQ "cat" (e.cat.map (fun c => toString c.toCode))
      ++ optQ "series" (e.series.map boolStr)
      ++ optQ "platform" e.platform
      ++ optQ "sort" e.sort
      ++ optQ "year" (e.year.map toString)
      ++ optQ "month" (e.month.map toString)
      ++ optQ "limit" (e.limit.map toString)
      ++ optQ "offset" (e.offset.map toString),
    headers := e.client.requestHeaders [("Accept", "application/json")],
    body := none }

/-- `GetEpisodesExecutor` from `src/client/episodes.rs`. -/
structure GetEpisodesExecutor where
  client : Client
  subject_id : Nat
  type : Option EpisodeType := none
  limit : Option Nat := none
  offset : Option Nat := none
deriving Repr

/-- `GetEpisodesExecutor::send`, up to handing the request to the
transport: `GET /v0/episodes` with the mandatory `subject_id` pair and
each optional parameter contributing one pair when set and nothing when
unset (reqwest skips `None` query values). -/
def GetEpisodesExecutor.render (e : GetEpisodesExecutor) : Request :=
  { method := .GET,
    path := "/v0/episodes",
    query := [("subject_id", toString e.subject_id)]
      ++ optQ "type" (e.type.map (fun t => toString t.toCode))
      ++ optQ "limit" (e.limit.map toString)
      ++ optQ "offset" (e.offset.map toString),
    headers := e.client.requestHeaders [("Accept", "application/json")],
    body := none }

/-- Request rendered by `Client::get_subject` (`GET /v0/subjects/{id}`). -/
def Client.get_subject_request (c : Client) (subject_id : Nat) : Request :=
  { method := .GET,
    path := "/v0/subjects/" ++ toString subject_id,
    query := [],
    headers := c.requestHeaders [("Accept", "application/json")],
    body := none }

/-- Request rendered by `Client::get_episode` (`GET /v0/episodes/{id}`). -/
def Client.get_episode_request (c : Client) (episode_id : Nat) : Request :=
  { method := .GET,
    path := "/v0/episodes/" ++ toString episode_id,
    query := [],
    headers := c.requestHeaders [("Accept", "application/json")],
    body := none }

/-- Error taxonomy of the crate, restricted to what response handling
distinguishes: builder validation errors, remote status errors
(`reqwest::Response::error_for_status`), and serde decode errors. -/
inductive ApiError where
  | builder : String → ApiError
  | status : Nat → ApiError
  | decode : ApiError
deriving Repr, DecidableEq

/-- A raw response from the transport. -/
structure Response where
  status : Nat
  body : Json
deriving Repr

/-- Decode a JSON value as an unsigned integer (`u64` field). -/
def decodeU64 : Json → Option Nat
  | .num n => if 0 ≤ n then some n.toNat else none
  | _ => none

/-- Decode a JSON value as a string field. -/
def decodeStr : Json → Option String
  | .str s => some s
  | _ => none

/-- A required struct field: missing key or mismatched shape fails. -/
def reqField (fs : List (String × Json)) (name : String)
    (dec : Json → Option α) : Option α :=
  jlookup name fs >>= dec

/-- An `Option`-typed struct field as serde treats it: a missing key or
an explicit null decodes to `none`; any other value must decode. -/
def optField (fs : List (String × Json)) (name : String)
    (dec : Json → Option α) : Option (Option α) :=
  match jlookup name fs with
  | none => some none
  | some .null => some none
  | some j => (dec j).map some

/-- `Episode` from `src/types.rs`. -/
structure Episode where
  id : Nat
  type : EpisodeType
  name : String
  name_cn : String
  sort : Nat
  ep : Option Nat
  airdate : String
  comment : Nat
  duration : String
  desc : String
  disc : Nat
  duration_seconds : Option Nat
deriving Repr, DecidableEq

/-- serde decode of an `Episode` object: all fields required except the
two `Option` ones. -/
def decodeEpisode (j : Json) : Option Episode :=
  match j with
  | .obj fs => do
    let id ← reqField fs "id" decodeU64
    let ty ← reqField fs "type" (fun v =>
      match v with
      | .num n => decodeEpisodeType n
      | _ => none)
    let name ← reqField fs "name" decodeStr
    let name_cn ← reqField fs "name_cn" decodeStr
    let sort ← reqField fs "sort" decodeU64
    let ep ← optField fs "ep" decodeU64
    let airdate ← reqField fs "airdate" decodeStr
    let comment ← reqField fs "comment" decodeU64
    let duration ← reqField fs "duration" decodeStr
    let desc ← reqField fs "desc" decodeStr
    let disc ← reqField fs "disc" decodeU64
    let duration_seconds ← optField fs "duration_seconds" decodeU64
    pure ⟨id, ty, name, name_cn, sort, ep, airdate, comment, duration,
      desc, disc, duration_seconds⟩
  | _ => none

/-- `PagedEpisode` from `src/types.rs`. -/
structure PagedEpisode where
  total : Nat
  limit : Nat
  offset : Nat
  data : List Episode
deriving Repr, DecidableEq

/-- serde decode of a `PagedEpisode` object. -/
def decodePagedEpisode (j : Json) : Option PagedEpisode :=
  match j with
  | .obj fs => do
    let total ← reqField fs "total" decodeU64
    let limit ← reqField fs "limit" decodeU64
    let offset ← reqField fs "offset" decodeU64
    let data ← reqField fs "data" (fun v =>
      match v with
      | .arr elems => elems.mapM decodeEpisode
      | _ => none)
    pure ⟨total, limit, offset, data⟩
  | _ => none

/-- `reqwest::Response::error_for_status`: fails exactly on client and
server error status codes (400-599). -/
def errorForStatus (status : Nat) : Bool :=
  decide (400 ≤ status ∧ status ≤ 599)

/-- Response handling shared by every operation that calls
`error_for_status` before decoding: a 4xx/5xx status becomes a remote
status error carrying the code; otherwise the body is decoded. -/
def handleChecked (dec : Json → Option α) (r : Response) :
    Except ApiError α :=
  if errorForStatus r.status then .error (.status r.status)
  else
    match dec r.body with
    | some v => .ok v
    | none => .error .decode

/-- Response handling of `Client::get_episode` from `src/client.rs`:
`error_for_status` then decode. -/
def Client.get_episode_handle (r : Response) : Except ApiError Episode :=
  handleChecked decodeEpisode r

/-- Response handling of `Client::get_subject` and the other simple
single-id operations from `src/client.rs`: `error_for_status` then
decode (the episode decoder stands in for the entity decoder, which is
irrelevant to the status check). -/
def Client.single_id_get_handle (dec : Json → Option α) (r : Response) :
    Except ApiError α :=
  handleChecked dec r

/-- Response handling of `GetEpisodesExecutor::send` from
`src/client/episodes.rs`: the response is decoded directly, with no
`error_for_status` call. -/
def GetEpisodesExecutor.handleResponse (r : Response) :
    Except ApiError PagedEpisode :=
  match decodePagedEpisode r.body with
  | some v => .ok v
  | none => .error .decode

/-- Response handling of `SearchSubjectsExecutor::send` and
`GetSubjectsExecutor::send` from `src/client/subjects.rs`:
`error_for_status` then decode (decoder abstracted). -/
def subjectsExecutorHandle (dec : Json → Option α) (r : Response) :
    Except ApiError α :=
  handleChecked dec r

/-- Field list of a JSON object (empty for non-objects). -/
def Json.objFields : Json → List (String × Json)
  | .obj fs => fs
  | _ => []

theorem jlookup_append (k : String) (a b : List (String × Json)) :
    jlookup k (a ++ b) =
      match jlookup k a with
      | some v => some v
      | none => jlookup k b := by
  induction a with
  | nil => simp [jlookup]
  | cons hd tl ih =>
    obtain ⟨k', v⟩ := hd
    by_cases h : k' = k
    · simp [jlookup, h]
    · simp [jlookup, h, ih]

theorem jlookup_optListField (k name : String) (l : List α)
    (enc : α → Json) :
    jlookup k (optListField name l enc) =
      if name = k then
        (if l.isEmpty then none else some (Json.arr (l.map enc)))
      else none := by
  unfold optListField
  by_cases hl : l.isEmpty
  · simp [hl, jlookup]
  · by_cases hk : name = k <;> simp [hl, hk, jlookup]

theorem mem_optListField (k name : String) (x : Json) (l : List α)
    (enc : α → Json) :
    (k, x) ∈ optListField name l enc ↔
      (k = name ∧ l.isEmpty = false ∧ x = Json.arr (l.map enc)) := by
  unfold optListField
  by_cases hl : l.isEmpty
  · simp [hl]
  · simp [hl, eq_comm, and_assoc]

theorem keys_optListField (k name : String) (l : List α) (enc : α → Json) :
    k ∈ (optListField name l enc).map Prod.fst ↔
      (k = name ∧ l.isEmpty = false) := by
  unfold optListField
  by_cases hl : l.isEmpty
  · simp [hl]
  · simp [hl, eq_comm]

/-- C5: decoding the JSON array of two value-only objects as an
`InfoboxValue` yields the `List` variant with the two value-only items
in order; decoding a bare JSON string yields the `Single` variant; and
an object element decodes through the two-field `KV` form first,
falling back to the one-field `V` form when the `k` field is absent. -/
theorem c5_infobox_value_decoding :
    decodeInfoboxValue (Json.arr [Json.obj [("v", Json.str "A")],
        Json.obj [("v", Json.str "B")]]) =
      some (InfoboxValue.List [InfoboxValueItem.V "A",
        InfoboxValueItem.V "B"]) ∧
    (∀ s : String,
      decodeInfoboxValue (Json.str s) = some (InfoboxValue.Single s)) ∧
    (∀ (fs : List (String × Json)) (k v : String),
      jlookup "k" fs = some (Json.str k) →
      jlookup "v" fs = some (Json.str v) →
      decodeInfoboxValueItem (Json.obj fs) =
        some (InfoboxValueItem.KV k v)) ∧
    (∀ (fs : List (String × Json)) (v : String),
      jlookup "k" fs = none →
      jlookup "v" fs = some (Json.str v) →
      decodeInfoboxValueItem (Json.obj fs) =
        some (InfoboxValueItem.V v)) := by
  refine ⟨by rfl, fun s => rfl, ?_, ?_⟩
  · intro fs k v h1 h2
    simp [decodeInfoboxValueItem, h1, h2]
  · intro fs v h1 h2
    simp [decodeInfoboxValueItem, h1, h2]

/-- C5 witness: concrete instances of the conditional parts, obtained by
applying the theorem at explicit field lists. -/
theorem c5_infobox_value_decoding_witness :
    decodeInfoboxValueItem
        (Json.obj [("k", Json.str "a"), ("v", Json.str "b")]) =
      some (InfoboxValueItem.KV "a" "b") ∧
    decodeInfoboxValueItem (Json.obj [("v", Json.str "b")]) =
      some (InfoboxValueItem.V "b") :=
  ⟨c5_infobox_value_decoding.2.2.1 [("k", Json.str "a"),
      ("v", Json.str "b")] "a" "b" (by rfl) (by rfl),
    c5_infobox_value_decoding.2.2.2 [("v", Json.str "b")] "b"
      (by rfl) (by rfl)⟩

/-- C6: the untagged `SubjectCategory` decode picks the first of Book,
Anime, Game, Real (in declaration order) whose code set contains the
integer; 0 decodes as `Book Other` although the Game and Real
enumerations also assign 0, and 3 decodes as `Anime Movie` although the
Real enumeration assigns 3 to CN. -/
theorem c6_subject_category_first_match :
    (∀ (n : Int) (c : SubjectBookCategory),
      decodeSubjectBookCategory n = some c →
      decodeSubjectCategory n = some (SubjectCategory.Book c)) ∧
    (∀ (n : Int) (c : SubjectAnimeCategory),
      decodeSubjectBookCategory n = none →
      decodeSubjectAnimeCategory n = some c →
      decodeSubjectCategory n = some (SubjectCategory.Anime c)) ∧
    (∀ (n : Int) (c : SubjectGameCategory),
      decodeSubjectBookCategory n = none →
      decodeSubjectAnimeCategory n = none →
      decodeSubjectGameCategory n = some c →
      decodeSubjectCategory n = some (SubjectCategory.Game c)) ∧
    (∀ (n : Int) (c : SubjectRealCategory),
      decodeSubjectBookCategory n = none →
      decodeSubjectAnimeCategory n = none →
      decodeSubjectGameCategory n = none →
      decodeSubjectRealCategory n = some c →
      decodeSubjectCategory n = some (SubjectCategory.Real c)) ∧
    decodeSubjectCategory 0 = some (SubjectCategory.Book .Other) ∧
    decodeSubjectGameCategory 0 = some .Other ∧
    decodeSubjectRealCategory 0 = some .Other ∧
    decodeSubjectCategory 3 = some (SubjectCategory.Anime .Movie) ∧
    decodeSubjectRealCategory 3 = some .CN := by
  refine ⟨?_, ?_, ?_, ?_, by decide, by decide, by decide, by decide,
    by decide⟩
  · intro n c h
    simp [decodeSubjectCategory, h]
  · intro n c h1 h2
    simp [decodeSubjectCategory, h1, h2]
  · intro n c h1 h2 h3
    simp [decodeSubjectCategory, h1, h2, h3]
  · intro n c h1 h2 h3 h4
    simp [decodeSubjectCategory, h1, h2, h3, h4]

/-- C6 witness: the priority statements applied at the concrete codes
1001 (Book beats nothing), 1 (Anime after Book fails is not reached
since Book has no 1; Book fails, Anime succeeds), 4001 and 6001. -/
theorem c6_subject_category_first_match_witness :
    decodeSubjectCategory 1001 = some (SubjectCategory.Book .Comic) ∧
    decodeSubjectCategory 1 = some (SubjectCategory.Anime .TV) ∧
    decodeSubjectCategory 4001 = some (SubjectCategory.Game .Games) ∧
    decodeSubjectCategory 6001 = some (SubjectCategory.Real .TV) :=
  ⟨c6_subject_category_first_match.1 1001 .Comic (by decide),
    c6_subject_category_first_match.2.1 1 .TV (by decide) (by decide),
    c6_subject_category_first_match.2.2.1 4001 .Games (by decide)
      (by decide) (by decide),
    c6_subject_category_first_match.2.2.2.1 6001 .TV (by decide)
      (by decide) (by decide) (by decide)⟩

/-- C8: every numeric-coded enumeration decodes only its declared code
set; any integer outside it fails the decode (yields no variant at
all), in particular `SubjectType` at 5. -/
theorem c8_enum_decode_closed :
    (∀ n : Int, n ∉ ([1, 2, 3, 4, 6] : List Int) →
      decodeSubjectType n = none) ∧
    (∀ n : Int, n ∉ ([1, 2, 3, 4] : List Int) →
      decodeCharacterType n = none) ∧
    (∀ n : Int, n ∉ ([1, 2, 3] : List Int) →
      decodePersonType n = none) ∧
    (∀ n : Int, n ∉ ([0, 1, 2, 3, 4, 5, 6] : List Int) →
      decodeEpisodeType n = none) ∧
    (∀ n : Int, n ∉ ([1, 2, 3, 4] : List Int) →
      decodeBloodType n = none) ∧
    (∀ n : Int, n ∉ ([0, 1001, 1002, 1003] : List Int) →
      decodeSubjectBookCategory n = none) ∧
    (∀ n : Int, n ∉ ([1, 2, 3, 4] : List Int) →
      decodeSubjectAnimeCategory n = none) ∧
    (∀ n : Int, n ∉ ([0, 4001, 4002, 4003, 4005] : List Int) →
      decodeSubjectGameCategory n = none) ∧
    (∀ n : Int, n ∉ ([0, 1, 2, 3, 6001, 6002, 6003, 6004] : List Int) →
      decodeSubjectRealCategory n = none) ∧
    decodeSubjectType 5 = none := by
  refine ⟨?_, ?_, ?_, ?_, ?_, ?_, ?_, ?_, ?_, by decide⟩
  · intro n hn
    by_contra h
    apply hn
    unfold decodeSubjectType at h
    split_ifs at h with h1 h2 h3 h4 h5 <;> simp_all
  · intro n hn
    by_contra h
    apply hn
    unfold decodeCharacterType at h
    split_ifs at h with h1 h2 h3 h4 <;> simp_all
  · intro n hn
    by_contra h
    apply hn
    unfold decodePersonType at h
    split_ifs at h with h1 h2 h3 <;> simp_all
  · intro n hn
    by_contra h
    apply hn
    unfold decodeEpisodeType at h
    split_ifs at h with h1 h2 h3 h4 h5 h6 h7 <;> simp_all
  · intro n hn
    by_contra h
    apply hn
    unfold decodeBloodType at h
    split_ifs at h with h1 h2 h3 h4 <;> simp_all
  · intro n hn
    by_contra h
    apply hn
    unfold decodeSubjectBookCategory at h
    split_ifs at h with h1 h2 h3 h4 <;> simp_all
  · intro n hn
    by_contra h
    apply hn
    unfold decodeSubjectAnimeCategory at h
    split_ifs at h with h1 h2 h3 h4 <;> simp_all
  · intro n hn
    by_contra h
    apply hn
    unfold decodeSubjectGameCategory at h
    split_ifs at h with h1 h2 h3 h4 h5 <;> simp_all
  · intro n hn
    by_contra h
    apply hn
    unfold decodeSubjectRealCategory at h
    split_ifs at h with h1 h2 h3 h4 h5 h6 h7 h8 <;> simp_all

/-- C8 witness: the closedness statements applied at concrete
out-of-range codes (5 for `SubjectType`, 7 for `EpisodeType`, 2000 for
the Book categories). -/
theorem c8_enum_decode_closed_witness :
    decodeSubjectType 5 = none ∧
    decodeEpisodeType 7 = none ∧
    decodeSubjectBookCategory 2000 = none :=
  ⟨c8_enum_decode_closed.1 5 (by decide),
    c8_enum_decode_closed.2.2.2.1 7 (by decide),
    c8_enum_decode_closed.2.2.2.2.2.1 2000 (by decide)⟩

/-- C10: the serialization of every `SearchSubjectsFilter` carries the
`nsfw` key with the filter's boolean (the field has no
skip-serialization attribute), and the default filter serializes to the
object holding just that one pair. -/
theorem c10_filter_nsfw_always_serialized :
    (∀ f : SearchSubjectsFilter,
      jlookup "nsfw" (serializeSearchSubjectsFilter f).objFields =
        some (Json.bool f.nsfw)) ∧
    serializeSearchSubjectsFilter {} =
      Json.obj [("nsfw", Json.bool false)] := by
  refine ⟨?_, by rfl⟩
  intro f
  simp [serializeSearchSubjectsFilter, Json.objFields, jlookup_append,
    jlookup_optListField, jlookup]

theorem decodeSearchSubjectsFilter_none_of_missing
    (fs : List (String × Json))
    (h : jlookup "type" fs = none ∨ jlookup "tag" fs = none ∨
      jlookup "air_date" fs = none ∨ jlookup "rating" fs = none ∨
      jlookup "rank" fs = none) :
    decodeSearchSubjectsFilter (Json.obj fs) = none := by
  rcases h with h | h | h | h | h <;> simp [decodeSearchSubjectsFilter, h]

/-- C7 counterexample: for the filter whose only populated list is
`type = [Anime]`, serialization omits the four empty keys as claimed,
but decoding the very JSON object it produced fails (the decoder
requires every list key), so the round-trip does not restore the
filter. -/
theorem c7_counterexample_roundtrip_fails :
    serializeSearchSubjectsFilter { type := [SubjectType.Anime] } =
      Json.obj [("type", Json.arr [Json.num 2]),
        ("nsfw", Json.bool false)] ∧
    decodeSearchSubjectsFilter
      (serializeSearchSubjectsFilter { type := [SubjectType.Anime] }) =
      none :=
  ⟨rfl, by decide⟩

/-- C7 (amended): for every filter with at least one empty and at least
one populated list field, serialization omits the key of every empty
list field entirely and includes the key of every populated one with
its elements in order; but decoding the JSON object produced by
serialization fails with a missing-field error instead of restoring the
filter, because the decoder requires all five list keys. -/
theorem c7_filter_serialization_amended (f : SearchSubjectsFilter)
    (h1 : f.type = [] ∨ f.tag = [] ∨ f.air_date = [] ∨ f.rating = [] ∨
      f.rank = [])
    (h2 : f.type ≠ [] ∨ f.tag ≠ [] ∨ f.air_date ≠ [] ∨ f.rating ≠ [] ∨
      f.rank ≠ []) :
    ((f.type = [] →
        "type" ∉ (serializeSearchSubjectsFilter f).objFields.map Prod.fst) ∧
      (f.type ≠ [] →
        jlookup "type" (serializeSearchSubjectsFilter f).objFields =
          some (Json.arr (f.type.map fun t => Json.num t.toCode)))) ∧
    ((f.tag = [] →
        "tag" ∉ (serializeSearchSubjectsFilter f).objFields.map Prod.fst) ∧
      (f.tag ≠ [] →
        jlookup "tag" (serializeSearchSubjectsFilter f).objFields =
          some (Json.arr (f.tag.map Json.str)))) ∧
    ((f.air_date = [] →
        "air_date" ∉
          (serializeSearchSubjectsFilter f).objFields.map Prod.fst) ∧
      (f.air_date ≠ [] →
        jlookup "air_date" (serializeSearchSubjectsFilter f).objFields =
          some (Json.arr (f.air_date.map Json.str)))) ∧
    ((f.rating = [] →
        "rating" ∉
          (serializeSearchSubjectsFilter f).objFields.map Prod.fst) ∧
      (f.rating ≠ [] →
        jlookup "rating" (serializeSearchSubjectsFilter f).objFields =
          some (Json.arr (f.rating.map Json.str)))) ∧
    ((f.rank = [] →
        "rank" ∉ (serializeSearchSubjectsFilter f).objFields.map Prod.fst) ∧
      (f.rank ≠ [] →
        jlookup "rank" (serializeSearchSubjectsFilter f).objFields =
          some (Json.arr (f.rank.map Json.str)))) ∧
    decodeSearchSubjectsFilter (serializeSearchSubjectsFilter f) =
      none := by
  have habs : ∀ l : List String, l ≠ [] → l.isEmpty = false := by
    intro l hl
    simp [List.isEmpty_iff, hl]
  refine ⟨⟨?_, ?_⟩, ⟨?_, ?_⟩, ⟨?_, ?_⟩, ⟨?_, ?_⟩, ⟨?_, ?_⟩, ?_⟩
  · intro h
    simp [serializeSearchSubjectsFilter, Json.objFields, List.map_append,
      List.mem_append, keys_optListField, mem_optListField, h]
  · intro h
    simp [serializeSearchSubjectsFilter, Json.objFields, jlookup_append,
      jlookup_optListField, List.isEmpty_iff, h]
  · intro h
    simp [serializeSearchSubjectsFilter, Json.objFields, List.map_append,
      List.mem_append, keys_optListField, mem_optListField, h]
  · intro h
    simp [serializeSearchSubjectsFilter, Json.objFields, jlookup_append,
      jlookup_optListField, List.isEmpty_iff, h]
  · intro h
    simp [serializeSearchSubjectsFilter, Json.objFields, List.map_append,
      List.mem_append, keys_optListField, mem_optListField, h]
  · intro h
    simp [serializeSearchSubjectsFilter, Json.objFields, jlookup_append,
      jlookup_optListField, List.isEmpty_iff, h]
  · intro h
    simp [serializeSearchSubjectsFilter, Json.objFields, List.map_append,
      List.mem_append, keys_optListField, mem_optListField, h]
  · intro h
    simp [serializeSearchSubjectsFilter, Json.objFields, jlookup_append,
      jlookup_optListField, List.isEmpty_iff, h]
  · intro h
    simp [serializeSearchSubjectsFilter, Json.objFields, List.map_append,
      List.mem_append, keys_optListField, mem_optListField, h]
  · intro h
    simp [serializeSearchSubjectsFilter, Json.objFields, jlookup_append,
      jlookup_optListField, List.isEmpty_iff, h]
  · have key : decodeSearchSubjectsFilter
        (Json.obj (serializeSearchSubjectsFilter f).objFields) = none := by
      apply decodeSearchSubjectsFilter_none_of_missing
      rcases h1 with h | h | h | h | h
      · left
        simp [serializeSearchSubjectsFilter, Json.objFields,
          jlookup_append, jlookup_optListField, jlookup, h]
      · right; left
        simp [serializeSearchSubjectsFilter, Json.objFields,
          jlookup_append, jlookup_optListField, jlookup, h]
      · right; right; left
        simp [serializeSearchSubjectsFilter, Json.objFields,
          jlookup_append, jlookup_optListField, jlookup, h]
      · right; right; right; left
        simp [serializeSearchSubjectsFilter, Json.objFields,
          jlookup_append, jlookup_optListField, jlookup, h]
      · right; right; right; right
        simp [serializeSearchSubjectsFilter, Json.objFields,
          jlookup_append, jlookup_optListField, jlookup, h]
    exact key

/-- C7 witness: the amended statement applied to the concrete filter
with `type = [Anime]` and everything else empty. -/
theorem c7_filter_serialization_amended_witness :
    jlookup "type"
        (serializeSearchSubjectsFilter
          { type := [SubjectType.Anime] }).objFields =
      some (Json.arr [Json.num 2]) ∧
    ("tag" ∉ (serializeSearchSubjectsFilter
        { type := [SubjectType.Anime] }).objFields.map Prod.fst) ∧
    decodeSearchSubjectsFilter
        (serializeSearchSubjectsFilter { type := [SubjectType.Anime] }) =
      none := by
  have h := c7_filter_serialization_amended { type := [SubjectType.Anime] }
    (by right; left; rfl) (by left; simp)
  exact ⟨h.1.2 (by simp), h.2.1.1 rfl, h.2.2.2.2.2⟩

/-- A client built with all configuration left to its defaults. -/
def builtDefaultClient : Client :=
  ClientBuilder.build {}

/-- The search executor of the end-to-end scenario: keyword
"魔法禁书目录", sort Match, limit 1, offset 0, filter with type
[Anime]. -/
def c1Executor : SearchSubjectsExecutor :=
  { client := builtDefaultClient,
    keyword := "魔法禁书目录",
    sort := .Match,
    limit := some 1,
    offset := some 0,
    filter := { type := [SubjectType.Anime] } }

/-- C1 counterexample: the filter member of the rendered body is not
the object with the single key `type`: it also carries the
always-serialized `nsfw` key, so its key list is `[type, nsfw]`, not
`[type]`. -/
theorem c1_counterexample_filter_has_nsfw :
    jlookup "filter" (c1Executor.render.body.getD Json.null).objFields =
      some (Json.obj [("type", Json.arr [Json.num 2]),
        ("nsfw", Json.bool false)]) ∧
    (Json.obj [("type", Json.arr [Json.num 2]),
        ("nsfw", Json.bool false)]).objFields.map Prod.fst ≠ ["type"] :=
  ⟨rfl, by decide⟩

/-- C1 (amended): the scenario renders a POST to /v0/search/subjects
with query pairs limit=1 and offset=0 and a JSON body whose content is,
up to object key order, the keyword, the sort string "match", and the
filter object holding `type` = [2] together with the always-present
`nsfw` = false. -/
theorem c1_search_subjects_request_amended :
    c1Executor.render.method = Method.POST ∧
    c1Executor.render.path = "/v0/search/subjects" ∧
    c1Executor.render.query = [("limit", "1"), ("offset", "0")] ∧
    c1Executor.render.body =
      some (Json.obj
        [("keyword", Json.str "魔法禁书目录"),
          ("filter", Json.obj [("type", Json.arr [Json.num 2]),
            ("nsfw", Json.bool false)]),
          ("sort", Json.str "match")]) ∧
    List.Perm
      [("keyword", Json.str "魔法禁书目录"),
        ("filter", Json.obj [("type", Json.arr [Json.num 2]),
          ("nsfw", Json.bool false)]),
        ("sort", Json.str "match")]
      [("keyword", Json.str "魔法禁书目录"),
        ("sort", Json.str "match"),
        ("filter", Json.obj [("type", Json.arr [Json.num 2]),
          ("nsfw", Json.bool false)])] :=
  ⟨rfl, rfl, by decide, rfl, List.Perm.cons _ (List.Perm.swap _ _ _)⟩

/-- A search builder on which only keyword and sort have been set
(besides the client reference installed by `builder`). -/
def c2Builder : SearchSubjectsExecutorBuilder :=
  { SearchSubjectsExecutor.builder builtDefaultClient with
    keyword := some "魔法禁书目录",
    sort := some SortType.Match }

/-- C2 counterexample: with keyword and sort set and filter, limit,
offset left unset, the build step does not succeed: it fails with the
uninitialized-field error naming `filter`, because the executor's
`filter` field carries no builder default. -/
theorem c2_counterexample_filter_required :
    c2Builder.keyword.isSome = true ∧
    c2Builder.sort.isSome = true ∧
    c2Builder.limit = none ∧
    c2Builder.offset = none ∧
    c2Builder.filter = none ∧
    c2Builder.build = Except.error "filter" :=
  ⟨rfl, rfl, rfl, rfl, rfl, rfl⟩

/-- C2 (amended): the mandatory parameters of the search-subjects build
step are keyword, sort and filter (besides the client reference);
limit and offset are optional.  A builder with the three set always
builds, and one with only keyword and sort set fails naming `filter`. -/
theorem c2_search_builder_mandatory_amended
    (b : SearchSubjectsExecutorBuilder) :
    (b.client.isSome = true → b.keyword.isSome = true →
      b.sort.isSome = true → b.filter.isSome = true →
      ∃ e, b.build = Except.ok e) ∧
    (b.client.isSome = true → b.keyword.isSome = true →
      b.sort.isSome = true → b.filter = none →
      b.build = Except.error "filter") := by
  constructor
  · intro hc hk hs hf
    obtain ⟨c, hc⟩ := Option.isSome_iff_exists.mp hc
    obtain ⟨kw, hk⟩ := Option.isSome_iff_exists.mp hk
    obtain ⟨so, hs⟩ := Option.isSome_iff_exists.mp hs
    obtain ⟨f, hf⟩ := Option.isSome_iff_exists.mp hf
    exact ⟨⟨c, kw, so, b.limit.getD none, b.offset.getD none, f⟩,
      by simp [SearchSubjectsExecutorBuilder.build, hc, hk, hs, hf]⟩
  · intro hc hk hs hf
    obtain ⟨c, hc⟩ := Option.isSome_iff_exists.mp hc
    obtain ⟨kw, hk⟩ := Option.isSome_iff_exists.mp hk
    obtain ⟨so, hs⟩ := Option.isSome_iff_exists.mp hs
    simp [SearchSubjectsExecutorBuilder.build, hc, hk, hs, hf]

/-- C2 witness: the amended statement applied to two concrete builders:
one with keyword, sort and filter set (builds), and the one of the
counterexample (fails naming `filter`). -/
theorem c2_search_builder_mandatory_amended_witness :
    (∃ e, ({ c2Builder with
        filter := some {} } : SearchSubjectsExecutorBuilder).build =
      Except.ok e) ∧
    c2Builder.build = Except.error "filter" :=
  ⟨(c2_search_builder_mandatory_amended
      { c2Builder with filter := some {} }).1 rfl rfl rfl rfl,
    (c2_search_builder_mandatory_amended c2Builder).2 rfl rfl rfl rfl⟩

/-- A 404 error body of the shape the remote API returns for a missing
resource. -/
def notFoundBody : Json :=
  Json.obj [("title", Json.str "Not Found"),
    ("description", Json.str "resource can not be found")]

/-- C3: `GetEpisodesExecutor::send` decodes the body without calling
`error_for_status`, so a 404 response yields a decode failure (or a
bogus success) instead of the remote-status failure the spec requires,
and it can never produce a status failure at all — while the simple
single-id operations and the subjects executors, which do call
`error_for_status`, return the status failure carrying the code. -/
theorem c3_episodes_send_missing_status_check :
    GetEpisodesExecutor.handleResponse ⟨404, notFoundBody⟩ =
      Except.error ApiError.decode ∧
    (∀ (r : Response) (s : Nat),
      GetEpisodesExecutor.handleResponse r ≠
        Except.error (ApiError.status s)) ∧
    Client.get_episode_handle ⟨404, notFoundBody⟩ =
      Except.error (ApiError.status 404) ∧
    (∀ (α : Type) (dec : Json → Option α) (r : Response),
      errorForStatus r.status = true →
      subjectsExecutorHandle dec r =
        Except.error (ApiError.status r.status)) := by
  refine ⟨by rfl, ?_, by rfl, ?_⟩
  · intro r s
    unfold GetEpisodesExecutor.handleResponse
    cases decodePagedEpisode r.body <;> simp
  · intro α dec r h
    simp [subjectsExecutorHandle, handleChecked, h]

/-- C3 witness: the universally quantified parts applied at a concrete
500 response. -/
theorem c3_episodes_send_missing_status_check_witness :
    GetEpisodesExecutor.handleResponse ⟨500, Json.null⟩ ≠
      Except.error (ApiError.status 500) ∧
    subjectsExecutorHandle decodePagedEpisode ⟨500, Json.null⟩ =
      Except.error (ApiError.status 500) :=
  ⟨c3_episodes_send_missing_status_check.2.1 ⟨500, Json.null⟩ 500,
    c3_episodes_send_missing_status_check.2.2.2 PagedEpisode
      decodePagedEpisode ⟨500, Json.null⟩ (by decide)⟩

/-- A caller-supplied transport handle with no default headers. -/
def customTransport : TransportHandle :=
  { defaultHeaders := [], userAgent := "custom/client/0.1" }

/-- A client built with a bearer token *and* a caller-supplied
transport handle. -/
def tokenWithCustomTransportClient : Client :=
  ClientBuilder.build { token := some "abc", client := some customTransport }

/-- C4 counterexample: a client built with token "abc" but a
caller-supplied transport keeps the token in its configuration, yet the
request rendered by `get_subject` carries no Authorization header: the
header is only installed by `default_client`, which is bypassed when
the caller supplies the transport. -/
theorem c4_counterexample_custom_transport_no_auth :
    tokenWithCustomTransportClient.token = some "abc" ∧
    ("Authorization", "Bearer abc") ∉
      (tokenWithCustomTransportClient.get_subject_request 1).headers :=
  ⟨rfl, by decide⟩

/-- C4 (amended): when a bearer token is set and the caller does not
supply their own transport handle, the default-constructed transport
carries the Authorization header among its default headers, so every
request rendered by every modelled operation includes
`Authorization: Bearer <token>`. -/
theorem c4_bearer_token_header_amended
    (b : ClientBuilder) (t : String)
    (h1 : b.token = some t) (h2 : b.client = none) :
    (∀ id : Nat, ("Authorization", "Bearer " ++ t) ∈
      (b.build.get_subject_request id).headers) ∧
    (∀ id : Nat, ("Authorization", "Bearer " ++ t) ∈
      (b.build.get_episode_request id).headers) ∧
    (∀ e : SearchSubjectsExecutor, e.client = b.build →
      ("Authorization", "Bearer " ++ t) ∈ e.render.headers) ∧
    (∀ e : GetSubjectsExecutor, e.client = b.build →
      ("Authorization", "Bearer " ++ t) ∈ e.render.headers) ∧
    (∀ e : GetEpisodesExecutor, e.client = b.build →
      ("Authorization", "Bearer " ++ t) ∈ e.render.headers) := by
  have hh : b.build.client.defaultHeaders =
      [("Authorization", "Bearer " ++ t)] := by
    simp [ClientBuilder.build, h2, ClientBuilder.default_client, h1]
  refine ⟨?_, ?_, ?_, ?_, ?_⟩
  · intro id
    simp [Client.get_subject_request, Client.requestHeaders, hh]
  · intro id
    simp [Client.get_episode_request, Client.requestHeaders, hh]
  · intro e he
    simp [SearchSubjectsExecutor.render, Client.requestHeaders, he, hh]
  · intro e he
    simp [GetSubjectsExecutor.render, Client.requestHeaders, he, hh]
  · intro e he
    simp [GetEpisodesExecutor.render, Client.requestHeaders, he, hh]

/-- C4 witness: the amended statement applied to the concrete builder
that sets only the token, at subject id 1. -/
theorem c4_bearer_token_header_amended_witness :
    ("Authorization", "Bearer " ++ "abc") ∈
      ((ClientBuilder.build { token := some "abc" }).get_subject_request
        1).headers :=
  (c4_bearer_token_header_amended { token := some "abc" } "abc"
    rfl rfl).1 1

/-- Number of query pairs carrying a given key. -/
def countKey (k : String) (q : List (String × String)) : Nat :=
  (q.map Prod.fst).count k

theorem countKey_nil (k : String) : countKey k [] = 0 := rfl

theorem countKey_append (k : String) (a b : List (String × String)) :
    countKey k (a ++ b) = countKey k a + countKey k b := by
  simp [countKey, List.count_append]

theorem countKey_single (k name v : String) :
    countKey k [(name, v)] = if name = k then 1 else 0 := by
  by_cases h : name = k <;> simp [countKey, List.count_cons, h]

theorem countKey_cons (k name v : String) (rest : List (String × String)) :
    countKey k ((name, v) :: rest) =
      countKey k rest + (if name = k then 1 else 0) := by
  by_cases h : name = k <;> simp [countKey, List.count_cons, h]

theorem countKey_optQ (k name : String) (o : Option String) :
    countKey k (optQ name o) =
      if name = k then (if o.isSome then 1 else 0) else 0 := by
  cases o <;> by_cases h : name = k <;>
    simp [optQ, countKey, List.count_cons, h]

/-- C9: in the rendered query strings of the search-subjects,
list-subjects and list-episodes operations, every optional parameter
the caller left unset contributes no pair at all, every optional
parameter the caller set contributes exactly one pair, and the
mandatory parameters contribute exactly one pair. -/
theorem c9_query_param_multiplicity :
    (∀ e : SearchSubjectsExecutor,
      countKey "limit" e.render.query =
        (if e.limit.isSome then 1 else 0) ∧
      countKey "offset" e.render.query =
        (if e.offset.isSome then 1 else 0)) ∧
    (∀ e : GetSubjectsExecutor,
      countKey "type" e.render.query = 1 ∧
      countKey "cat" e.render.query = (if e.cat.isSome then 1 else 0) ∧
      countKey "series" e.render.query =
        (if e.series.isSome then 1 else 0) ∧
      countKey "platform" e.render.query =
        (if e.platform.isSome then 1 else 0) ∧
      countKey "sort" e.render.query =
        (if e.sort.isSome then 1 else 0) ∧
      countKey "year" e.render.query = (if e.year.isSome then 1 else 0) ∧
      countKey "month" e.render.query =
        (if e.month.isSome then 1 else 0) ∧
      countKey "limit" e.render.query =
        (if e.limit.isSome then 1 else 0) ∧
      countKey "offset" e.render.query =
        (if e.offset.isSome then 1 else 0)) ∧
    (∀ e : GetEpisodesExecutor,
      countKey "subject_id" e.render.query = 1 ∧
      countKey "type" e.render.query = (if e.type.isSome then 1 else 0) ∧
      countKey "limit" e.render.query =
        (if e.limit.isSome then 1 else 0) ∧
      countKey "offset" e.render.query =
        (if e.offset.isSome then 1 else 0)) := by
  refine ⟨?_, ?_, ?_⟩
  · intro e
    constructor <;>
      simp [SearchSubjectsExecutor.render, countKey_append, countKey_optQ,
        countKey_single, Option.isSome_map']
  · intro e
    refine ⟨?_, ?_, ?_, ?_, ?_, ?_, ?_, ?_, ?_⟩ <;>
      simp [GetSubjectsExecutor.render, countKey_append, countKey_optQ,
        countKey_single, countKey_cons, Option.isSome_map']
  · intro e
    refine ⟨?_, ?_, ?_, ?_⟩ <;>
      simp [GetEpisodesExecutor.render, countKey_append, countKey_optQ,
        countKey_single, countKey_cons, Option.isSome_map']
